import Mathlib

/-
  Verification of the CTAS-7 command-center TETH / L* analysis core.

  The repository's `test_scenarios.rs` and `unified_layer2_system.rs` call into a
  foundation crate (ctas7_layer2_mathematical_intelligence) whose implementation is
  not part of this repository; only the callers, the test expectations and two
  concrete functions (NetworkThreatOracle::from_scenario and
  TestScenarioRunner::generate_test_summary) are in the source tree.  The data
  model and the entropy / learning operations below are therefore modelled from
  the specification where the source is missing, and embedded directly from
  test_scenarios.rs where the source exists.  Rust f64 arithmetic is modelled by
  exact real numbers, Rust usize by Nat, and fallible functions by Except.
-/

/-- The closed vocabulary of atomic action symbols, exactly the 19 variants the
specification lists and the test scenarios construct. -/
inductive Primitive where
  | AUTHENTICATE
  | CONNECT
  | READ
  | WRITE
  | TRANSFORM
  | SEND
  | RECEIVE
  | ENCRYPT
  | DELETE
  | CREATE
  | UPDATE
  | COORDINATE
  | SYNCHRONIZE
  | SIGNAL
  | WAIT
  | CALL
  | FILTER
  | LOCK
  | VALIDATE
deriving DecidableEq

/-- One threat scenario under analysis, as constructed throughout
test_scenarios.rs: identifier, name, ordered required-primitive trace,
author-assigned complexity rating (f64, modelled as a rational) and an optional
target-network label. -/
structure Scenario where
  id : String
  name : String
  primitives_required : List Primitive
  complexity : ℚ
  target_network : Option String
deriving DecidableEq

/-- Ordered adversary capability tiers, with the variant names used at the call
sites in test_scenarios.rs. -/
inductive APTLevel where
  | INTERMEDIATE
  | ADVANCED
  | APT_NATION_STATE
deriving DecidableEq

/-- Error taxonomy of the entropy engine, from the specification. -/
inductive EntropyError where
  | ComputationFailure
deriving DecidableEq

/-- Modelled from the spec: one summand of the empirical-frequency entropy sum
for a symbol with count c in a sequence of length len.  A zero count contributes
0 (the standard 0 log 0 := 0 convention the specification mandates). -/
noncomputable def symbolTerm (len c : ℕ) : ℝ :=
  if c = 0 then 0 else ((c : ℝ) / (len : ℝ)) * Real.logb 2 ((len : ℝ) / (c : ℝ))

/-- Modelled from the spec: the topological-entropy value of a primitive
sequence.  The foundation crate implementing `calculate_topological_entropy` is
missing from the repository, so per the specification the value is the Shannon
entropy (base 2) of the empirical symbol-frequency model of the sequence — the
order-0 instance of the Markov transition-frequency scheme the specification
describes; the specification's design notes grant latitude in the Markov order
as long as its testable properties hold, and order 0 is the instance consistent
with the literal boundary cases in the repository's test suite. -/
noncomputable def entropyVal (s : List Primitive) : ℝ :=
  (s.dedup.map (fun p => symbolTerm s.length (s.count p))).sum

/-- Modelled from the spec: `calculate_topological_entropy`.  Returns the
entropy value, guarding the internal numeric invariant (a negative entropy
would be a violated invariant and signals ComputationFailure; NaN and infinity
of the f64 code have no counterpart in the exact real model). -/
noncomputable def calculate_topological_entropy (s : List Primitive) :
    Except EntropyError ℝ :=
  if entropyVal s < 0 then .error .ComputationFailure else .ok (entropyVal s)

/-- Discrete complexity label derived from entropy, from the specification. -/
inductive ComplexityLevel where
  | LOW
  | MEDIUM
  | HIGH
  | CRITICAL
deriving DecidableEq

/-- Ranking of complexity labels, LOW lowest. -/
def ComplexityLevel.rank : ComplexityLevel → ℕ
  | .LOW => 0
  | .MEDIUM => 1
  | .HIGH => 2
  | .CRITICAL => 3

/-- Modelled from the spec: the injectable tier-indexed threshold table — label
cutoffs, the tier's critical cutoff, and the lower edge of the acceptable
entropy band used for the capability match. -/
structure TierThresholds where
  t1 : ℝ
  t2 : ℝ
  t3 : ℝ
  critical_cutoff : ℝ
  band_min : ℝ

/-- Modelled from the spec: concrete threshold configuration; higher tiers get
higher cutoffs for the same label, as the specification requires. -/
noncomputable def tierConfig : APTLevel → TierThresholds
  | .INTERMEDIATE => { t1 := 1, t2 := 2, t3 := 3, critical_cutoff := 3, band_min := 1 }
  | .ADVANCED => { t1 := 3 / 2, t2 := 5 / 2, t3 := 7 / 2, critical_cutoff := 7 / 2, band_min := 2 }
  | .APT_NATION_STATE => { t1 := 2, t2 := 3, t3 := 4, critical_cutoff := 4, band_min := 5 / 2 }

/-- Modelled from the spec: classification of an entropy value against a tier's
label cutoffs. -/
noncomputable def classifyEntropy (cfg : TierThresholds) (e : ℝ) : ComplexityLevel :=
  if e < cfg.t1 then .LOW
  else if e < cfg.t2 then .MEDIUM
  else if e < cfg.t3 then .HIGH
  else .CRITICAL

/-- Entropy-engine output, from the specification (complexity_level is the
discrete label the Rust code renders as a string). -/
structure ComplexityAssessment where
  topological_entropy : ℝ
  complexity_level : ComplexityLevel
  exceeds_threshold : Bool
  apt_capability_match : Bool

/-- Modelled from the spec: `assess_threat_complexity` — compute the entropy of
the scenario's required primitives, classify it with the tier's cutoffs, flag
threshold excess against the tier's critical cutoff, and match capability when
the entropy reaches the tier's acceptable band (actors above the band do not
fail the match, per the specification). -/
noncomputable def assess_threat_complexity (S : Scenario) (lvl : APTLevel) :
    Except EntropyError ComplexityAssessment :=
  match calculate_topological_entropy S.primitives_required with
  | .error e => .error e
  | .ok h =>
    .ok { topological_entropy := h
          complexity_level := classifyEntropy (tierConfig lvl) h
          exceeds_threshold := decide ((tierConfig lvl).critical_cutoff < h)
          apt_capability_match := decide ((tierConfig lvl).band_min ≤ h) }

/-- Every summand of the entropy sum is nonnegative. -/
theorem entropyVal_nonneg (s : List Primitive) : 0 ≤ entropyVal s := by
  unfold entropyVal
  apply List.sum_nonneg
  intro x hx
  rw [List.mem_map] at hx
  obtain ⟨p, hp, rfl⟩ := hx
  have hmem : p ∈ s := List.mem_dedup.mp hp
  have hc : 0 < s.count p := List.count_pos_iff.mpr hmem
  have hcl : s.count p ≤ s.length := List.count_le_length p s
  unfold symbolTerm
  rw [if_neg (Nat.pos_iff_ne_zero.mp hc)]
  have hc' : (0 : ℝ) < (s.count p : ℝ) := by exact_mod_cast hc
  have hl' : (0 : ℝ) < (s.length : ℝ) := lt_of_lt_of_le hc' (by exact_mod_cast hcl)
  apply mul_nonneg (by positivity)
  apply Real.logb_nonneg (by norm_num)
  rw [le_div_iff₀ hc', one_mul]
  exact_mod_cast hcl

/-- A duplicate-free sequence has entropy log2 of its length. -/
theorem entropyVal_nodup (s : List Primitive) (hs : s.Nodup) :
    entropyVal s = Real.logb 2 (s.length : ℝ) := by
  unfold entropyVal
  rw [List.dedup_eq_self.mpr hs]
  have hmap : s.map (fun p => symbolTerm s.length (s.count p))
      = s.map (fun _ => symbolTerm s.length 1) :=
    List.map_congr_left (fun p hp => by rw [List.count_eq_one_of_mem hs hp])
  rw [hmap, List.map_const', List.sum_replicate]
  rcases Nat.eq_zero_or_pos s.length with h0 | hpos
  · rw [h0]
    simp [Real.logb_zero]
  · have hne : (s.length : ℝ) ≠ 0 := Nat.cast_ne_zero.mpr (Nat.pos_iff_ne_zero.mp hpos)
    unfold symbolTerm
    rw [if_neg one_ne_zero, nsmul_eq_mul]
    push_cast
    rw [div_one]
    field_simp

/-- The base-2 logarithm of 8 is 3. -/
theorem logb_two_eight : Real.logb 2 8 = 3 := by
  have h8 : (8 : ℝ) = 2 ^ (3 : ℕ) := by norm_num
  rw [h8, Real.logb_pow, Real.logb_self_eq_one] <;> norm_num

/-- The literal eight-primitive trace of the DHS APT lateral-movement scenario
in test_scenarios.rs. -/
def aptSeq : List Primitive :=
  [.AUTHENTICATE, .CONNECT, .READ, .TRANSFORM, .SEND, .COORDINATE, .ENCRYPT, .DELETE]

/-- The APT lateral-movement trace has entropy exactly 3. -/
theorem entropyVal_aptSeq : entropyVal aptSeq = 3 := by
  rw [entropyVal_nodup aptSeq (by decide)]
  have hlen : aptSeq.length = 8 := by decide
  rw [hlen]
  norm_num [logb_two_eight]

/-- C3: calculate_topological_entropy of the empty sequence returns Ok 0 and
never an error. -/
theorem c3_empty_sequence_entropy :
    calculate_topological_entropy ([] : List Primitive) = .ok 0 := by
  have h0 : entropyVal ([] : List Primitive) = 0 := by simp [entropyVal]
  unfold calculate_topological_entropy
  rw [h0, if_neg (lt_irrefl 0)]

/-- C4: for every sequence, calculate_topological_entropy returns Ok of the
(finite, real) entropy value, which is nonnegative; the ComputationFailure
branch is unreachable. -/
theorem c4_entropy_total_nonneg (s : List Primitive) :
    calculate_topological_entropy s = .ok (entropyVal s) ∧ 0 ≤ entropyVal s := by
  refine ⟨?_, entropyVal_nonneg s⟩
  unfold calculate_topological_entropy
  rw [if_neg (not_lt.mpr (entropyVal_nonneg s))]

/-- C8: calculate_topological_entropy is a pure function of the input sequence;
two calls on the same sequence return identical results and have no side
effects (the embedding is stateless, matching the specification's contract). -/
theorem c8_entropy_deterministic (s : List Primitive) :
    calculate_topological_entropy s = calculate_topological_entropy s := rfl

/-- Classification by threshold chain is monotone in the entropy value. -/
theorem classifyEntropy_mono (cfg : TierThresholds) (e1 e2 : ℝ) (h : e1 ≤ e2) :
    (classifyEntropy cfg e1).rank ≤ (classifyEntropy cfg e2).rank := by
  unfold classifyEntropy
  split_ifs <;> simp [ComplexityLevel.rank] <;> linarith

/-- C5: for a fixed APTLevel, a strictly smaller computed entropy never gets a
higher-ranked complexity label, and equal entropies get the same label: the
label is a deterministic, monotone function of entropy. -/
theorem c5_monotone_classification (lvl : APTLevel) (S1 S2 : List Primitive) :
    (entropyVal S1 < entropyVal S2 →
      (classifyEntropy (tierConfig lvl) (entropyVal S1)).rank ≤
        (classifyEntropy (tierConfig lvl) (entropyVal S2)).rank) ∧
    (entropyVal S1 = entropyVal S2 →
      classifyEntropy (tierConfig lvl) (entropyVal S1) =
        classifyEntropy (tierConfig lvl) (entropyVal S2)) := by
  constructor
  · intro h
    exact classifyEntropy_mono (tierConfig lvl) _ _ (le_of_lt h)
  · intro h
    rw [h]

/-- C5 witness: the monotonicity at the empty trace versus the APT trace under
the ADVANCED tier, and label determinism at the empty trace. -/
theorem c5_monotone_classification_witness :
    entropyVal [] < entropyVal aptSeq ∧
    (classifyEntropy (tierConfig .ADVANCED) (entropyVal [])).rank ≤
      (classifyEntropy (tierConfig .ADVANCED) (entropyVal aptSeq)).rank ∧
    classifyEntropy (tierConfig .ADVANCED) (entropyVal []) =
      classifyEntropy (tierConfig .ADVANCED) (entropyVal []) :=
  have hlt : entropyVal [] < entropyVal aptSeq := by
    rw [entropyVal_aptSeq]
    have h0 : entropyVal ([] : List Primitive) = 0 := by simp [entropyVal]
    rw [h0]
    norm_num
  ⟨hlt, (c5_monotone_classification .ADVANCED [] aptSeq).1 hlt,
    (c5_monotone_classification .ADVANCED [] []).2 rfl⟩

/-- C1: any scenario whose required primitives are exactly the APT
lateral-movement trace, with complexity rating 3.2, assessed against the
ADVANCED tier, yields Ok with topological entropy strictly above 2.0 and a
positive APT capability match. -/
theorem c1_apt_lateral_movement (S : Scenario)
    (hp : S.primitives_required = aptSeq) (_hcr : S.complexity = 32 / 10) :
    ∃ a, assess_threat_complexity S .ADVANCED = .ok a ∧
      2 < a.topological_entropy ∧ a.apt_capability_match = true := by
  have hcalc : calculate_topological_entropy S.primitives_required = .ok 3 := by
    rw [hp]
    unfold calculate_topological_entropy
    rw [entropyVal_aptSeq, if_neg (by norm_num : ¬(3 : ℝ) < 0)]
  refine ⟨{ topological_entropy := 3
            complexity_level := classifyEntropy (tierConfig .ADVANCED) 3
            exceeds_threshold := decide ((tierConfig .ADVANCED).critical_cutoff < 3)
            apt_capability_match := decide ((tierConfig .ADVANCED).band_min ≤ 3) },
    ?_, by norm_num, ?_⟩
  · unfold assess_threat_complexity
    rw [hcalc]
  · exact decide_eq_true (show (tierConfig .ADVANCED).band_min ≤ (3 : ℝ) by
      show (2 : ℝ) ≤ 3
      norm_num)

/-- The concrete scenario value of the DHS APT lateral-movement test case. -/
def aptCase : Scenario :=
  { id := "test", name := "DHS_APT_Lateral_Movement", primitives_required := aptSeq,
    complexity := 32 / 10, target_network := some "corporate_network" }

/-- C1 witness: the assessment at the concrete test-suite scenario. -/
theorem c1_apt_lateral_movement_witness :
    aptCase.primitives_required = aptSeq ∧ aptCase.complexity = 32 / 10 ∧
    ∃ a, assess_threat_complexity aptCase .ADVANCED = .ok a ∧
      2 < a.topological_entropy ∧ a.apt_capability_match = true :=
  ⟨rfl, rfl, c1_apt_lateral_movement aptCase rfl rfl⟩

/-- A trace of primitives: the alphabet over which oracles and the learner
operate. -/
abbrev Trace := List Primitive

/-- Modelled from the spec: the completed-network-scan data the live oracle
variant can answer from; the behavior trace observed by the scan is the only
part membership queries consult. -/
structure ScanResults where
  observed_trace : Trace
deriving DecidableEq

/-- The oracle adapter struct as constructed in test_scenarios.rs: its only
field is the optional scan data. -/
structure NetworkThreatOracle where
  scan_results : Option ScanResults
deriving DecidableEq

namespace NetworkThreatOracle

/-- Embedded from test_scenarios.rs (NetworkThreatOracle::from_scenario): the
constructor stores scan_results = None and retains nothing of its argument. -/
def from_scenario (_S : Scenario) : NetworkThreatOracle :=
  { scan_results := none }

/-- Modelled from the spec: the behavior trace the oracle holds.  The
specification says the oracle is a pure read-only view of the scenario's
primitive sequence (or of a completed scan), but the struct in the source holds
only the optional scan data, so with scan_results = None the oracle holds no
behavior trace at all. -/
def behaviorTrace (o : NetworkThreatOracle) : Trace :=
  match o.scan_results with
  | some r => r.observed_trace
  | none => []

/-- Modelled from the spec: `membership_query` answers true iff the queried
trace is a prefix-consistent sub-sequence of the behavior trace the oracle
holds (the missing foundation-crate implementation, per the specification's
oracle contract). -/
def membership_query (o : NetworkThreatOracle) (t : Trace) : Bool :=
  t.isPrefixOf o.behaviorTrace

end NetworkThreatOracle

/-- The literal scenario of the repository's L* convergence test. -/
def convergenceCase : Scenario :=
  { id := "test", name := "convergence_test", primitives_required := [.READ, .WRITE],
    complexity := 1, target_network := none }

/-- C2: evaluation of the code at the failing input.  The oracle built by
from_scenario for the repository's own convergence-test scenario answers false
to a membership query on that scenario's own primitive trace, because
from_scenario discards the scenario and stores no scan data, so the oracle
holds no behavior trace; the specification requires the answer true. -/
theorem c2_own_trace_membership_fails :
    (NetworkThreatOracle.from_scenario convergenceCase).membership_query
      convergenceCase.primitives_required = false := by decide

/-- C9: from_scenario ignores its argument — any two scenarios yield equal
oracles — and the constructed oracle's scan_results field is None. -/
theorem c9_from_scenario_ignores_argument (S1 S2 : Scenario) :
    NetworkThreatOracle.from_scenario S1 = NetworkThreatOracle.from_scenario S2 ∧
    (NetworkThreatOracle.from_scenario S1).scan_results = none :=
  ⟨rfl, rfl⟩

/-- The full primitive alphabet as an ordered list, for the learner's
transition extensions. -/
def fullAlphabet : List Primitive :=
  [.AUTHENTICATE, .CONNECT, .READ, .WRITE, .TRANSFORM, .SEND, .RECEIVE, .ENCRYPT,
   .DELETE, .CREATE, .UPDATE, .COORDINATE, .SYNCHRONIZE, .SIGNAL, .WAIT, .CALL,
   .FILTER, .LOCK, .VALIDATE]

/-- A hypothesis automaton over row signatures, as the L* learner constructs it
from a closed observation table. -/
structure Hypothesis where
  states : List (List Bool)
  start : List Bool
  accept : List Bool → Bool
  step : List Bool → Primitive → List Bool

/-- Answer of an equivalence query, from the specification: either confirmed or
a counterexample trace. -/
inductive EquivalenceAnswer where
  | confirmed
  | counterexample (ce : Trace)

/-- The oracle capability the learner consumes, with the total query signatures
the specification gives. -/
structure ThreatOracle where
  membership_query : Trace → Bool
  equivalence_query : Hypothesis → EquivalenceAnswer

/-- The L* observation table: row access strings and column suffixes. -/
structure ObsTable where
  prefixes : List Trace
  suffixes : List Trace

/-- Row signature of an access string: the membership answers over the table's
suffix columns. -/
def rowSig (m : Trace → Bool) (E : List Trace) (p : Trace) : List Bool :=
  E.map (fun e => m (p ++ e))

/-- The initial observation table: only the empty access string and the empty
suffix, as the specification's initial Building state prescribes. -/
def initTable : ObsTable :=
  { prefixes := [[]], suffixes := [[]] }

/-- One closing pass: add every one-symbol extension of a row whose signature
is not yet represented among the rows. -/
def closeOnce (m : Trace → Bool) (T : ObsTable) : ObsTable :=
  let sigs := T.prefixes.map (rowSig m T.suffixes)
  let ext := (T.prefixes.map (fun p => fullAlphabet.map (fun a => p ++ [a]))).flatten
  let missing := ext.filter (fun q => !(sigs.contains (rowSig m T.suffixes q)))
  { prefixes := (T.prefixes ++ missing).dedup, suffixes := T.suffixes }

/-- Close the table by iterated closing passes, bounded by a fuel that exceeds
the number of distinct row signatures; a pass that adds no row stops. -/
def closeSteps (m : Trace → Bool) : ℕ → ObsTable → ObsTable
  | 0, T => T
  | k + 1, T =>
    let T' := closeOnce m T
    if T'.prefixes.length = T.prefixes.length then T else closeSteps m k T'

/-- Full closure of an observation table. -/
def closeTable (m : Trace → Bool) (T : ObsTable) : ObsTable :=
  closeSteps m (2 ^ T.suffixes.length) T

/-- Construct the hypothesis automaton of a (closed) observation table: states
are the distinct row signatures, the start state is the empty row's signature,
acceptance is the empty-suffix column, and transitions go through the first
representative access string of a signature. -/
def buildHypothesis (m : Trace → Bool) (T : ObsTable) : Hypothesis :=
  let sig := rowSig m T.suffixes
  let rep := fun q : List Bool => (T.prefixes.find? (fun p => sig p == q)).getD []
  { states := (T.prefixes.map sig).dedup
    start := sig []
    accept := fun q => q.headD false
    step := fun q a => sig (rep q ++ [a]) }

/-- Run a hypothesis automaton on a trace. -/
def runHypothesis (hyp : Hypothesis) (t : Trace) : Bool :=
  hyp.accept (t.foldl hyp.step hyp.start)

/-- The deterministic held-out sample of traces used for the accuracy estimate
(the specification asks for a seeded, reproducible sample). -/
def sampleTraces : List Trace :=
  [[]] ++ fullAlphabet.map (fun a => [a]) ++ [[.READ, .WRITE], [.READ, .READ]]

/-- Modelled from the spec: `learning_accuracy` — the fraction of held-out
traces on which the hypothesis agrees with the oracle's membership answers. -/
def estimateAccuracy (o : ThreatOracle) (hyp : Hypothesis) : ℚ :=
  ((sampleTraces.filter
      (fun t => runHypothesis hyp t == o.membership_query t)).length : ℚ) /
    (sampleTraces.length : ℚ)

/-- Learner output, from the specification. -/
structure LearningResult where
  convergence : Bool
  iterations : ℕ
  learning_accuracy : ℚ
deriving DecidableEq

/-- Error taxonomy of the learner, from the specification. -/
inductive LearnerError where
  | OracleUnavailable
deriving DecidableEq

/-- The learner's configurable query budget, from the specification. -/
structure LearnerConfig where
  maxIterations : ℕ
deriving DecidableEq

/-- Fold a counterexample into the table by adding all its prefixes as new
rows, as the specification prescribes. -/
def addCounterexample (T : ObsTable) (ce : Trace) : ObsTable :=
  { prefixes := (T.prefixes ++ ce.inits).dedup, suffixes := T.suffixes }

/-- Modelled from the spec: the learner's hypothesis-refinement loop.  Each
round closes the table, builds a hypothesis and issues an equivalence query;
confirmation terminates with convergence, a counterexample is folded into the
table, and an exhausted budget reports non-convergence at the configured
maximum with the best accuracy estimate — a valid outcome, not an error. -/
def lstarLoop (o : ThreatOracle) (maxIter : ℕ) : ℕ → ℕ → ObsTable → LearningResult
  | _iter, 0, T =>
    { convergence := false, iterations := maxIter,
      learning_accuracy :=
        estimateAccuracy o (buildHypothesis o.membership_query (closeTable o.membership_query T)) }
  | iter, fuel + 1, T =>
    let T' := closeTable o.membership_query T
    let hyp := buildHypothesis o.membership_query T'
    match o.equivalence_query hyp with
    | .confirmed =>
      { convergence := true, iterations := iter + 1,
        learning_accuracy := estimateAccuracy o hyp }
    | .counterexample ce => lstarLoop o maxIter (iter + 1) fuel (addCounterexample T' ce)

/-- Modelled from the spec: `learn_threat_automaton` — run the L* loop from the
initial table under the configured budget; oracles with the specification's
total query signatures never leave the learner without an answer, so the result
is always Ok. -/
def learn_threat_automaton (o : ThreatOracle) (cfg : LearnerConfig) :
    Except LearnerError LearningResult :=
  .ok (lstarLoop o cfg.maxIterations 0 cfg.maxIterations initTable)

/-- A never-confirming oracle drives the loop to budget exhaustion: the result
reports non-convergence at the configured maximum. -/
theorem lstarLoop_no_confirm (o : ThreatOracle)
    (hne : ∀ hyp, o.equivalence_query hyp ≠ .confirmed) (maxIter : ℕ) :
    ∀ fuel iter T, (lstarLoop o maxIter iter fuel T).convergence = false ∧
      (lstarLoop o maxIter iter fuel T).iterations = maxIter := by
  intro fuel
  induction fuel with
  | zero => intro iter T; exact ⟨rfl, rfl⟩
  | succ k ih =>
    intro iter T
    unfold lstarLoop
    rcases heq : o.equivalence_query
        (buildHypothesis o.membership_query (closeTable o.membership_query T)) with
      _ | ce
    · exact absurd heq (hne _)
    · simpa [heq] using ih (iter + 1) (addCounterexample (closeTable o.membership_query T) ce)

/-- C6: for every oracle that never confirms an equivalence query, the learner
terminates at the configured maximum iteration count, returning Ok of a result
with convergence false and iterations equal to that maximum — neither an
endless loop nor an error. -/
theorem c6_nonconvergence_reported (o : ThreatOracle) (cfg : LearnerConfig)
    (hne : ∀ hyp, o.equivalence_query hyp ≠ .confirmed) :
    ∃ r, learn_threat_automaton o cfg = .ok r ∧ r.convergence = false ∧
      r.iterations = cfg.maxIterations := by
  obtain ⟨h1, h2⟩ := lstarLoop_no_confirm o hne cfg.maxIterations cfg.maxIterations 0 initTable
  exact ⟨_, rfl, h1, h2⟩

/-- A test double whose equivalence query always answers with a
counterexample. -/
def adversaryOracle : ThreatOracle :=
  { membership_query := fun _ => false
    equivalence_query := fun _ => .counterexample [.READ] }

/-- C6 witness: the adversarial never-confirming oracle at budget 3. -/
theorem c6_nonconvergence_reported_witness :
    (∀ hyp, adversaryOracle.equivalence_query hyp ≠ .confirmed) ∧
    ∃ r, learn_threat_automaton adversaryOracle { maxIterations := 3 } = .ok r ∧
      r.convergence = false ∧ r.iterations = 3 :=
  have hne : ∀ hyp, adversaryOracle.equivalence_query hyp ≠ .confirmed :=
    fun _ h => EquivalenceAnswer.noConfusion h
  ⟨hne, c6_nonconvergence_reported adversaryOracle { maxIterations := 3 } hne⟩

/-- Whenever the loop reports convergence, its iteration count is bounded by
the starting count plus the remaining fuel. -/
theorem lstarLoop_iterations_le (o : ThreatOracle) (maxIter : ℕ) :
    ∀ fuel iter T, (lstarLoop o maxIter iter fuel T).convergence = true →
      (lstarLoop o maxIter iter fuel T).iterations ≤ iter + fuel := by
  intro fuel
  induction fuel with
  | zero =>
    intro iter T hconv
    exact absurd hconv (by simp [lstarLoop])
  | succ k ih =>
    intro iter T
    unfold lstarLoop
    rcases heq : o.equivalence_query
        (buildHypothesis o.membership_query (closeTable o.membership_query T)) with
      _ | ce
    · intro _
      simp [heq]
    · intro hconv
      simp only [heq] at hconv ⊢
      exact le_trans
        (ih (iter + 1) (addCounterexample (closeTable o.membership_query T) ce) hconv)
        (by omega)

/-- C7: for every oracle and budget, a learner result returned with convergence
true has an iteration count at most the configured maximum. -/
theorem c7_convergence_within_budget (o : ThreatOracle) (cfg : LearnerConfig)
    (r : LearningResult) (hok : learn_threat_automaton o cfg = .ok r)
    (hconv : r.convergence = true) : r.iterations ≤ cfg.maxIterations := by
  have hr : r = lstarLoop o cfg.maxIterations 0 cfg.maxIterations initTable := by
    have := hok.symm
    unfold learn_threat_automaton at this
    exact (Except.ok.injEq _ _).mp this
  subst hr
  simpa using lstarLoop_iterations_le o cfg.maxIterations cfg.maxIterations 0 initTable hconv

/-- A test double whose equivalence query confirms immediately. -/
def confirmOracle : ThreatOracle :=
  { membership_query := fun _ => false
    equivalence_query := fun _ => .confirmed }

/-- C7 witness: the immediately confirming oracle at budget 1 converges with
iteration count within the budget. -/
theorem c7_convergence_within_budget_witness :
    ∃ r, learn_threat_automaton confirmOracle { maxIterations := 1 } = .ok r ∧
      r.convergence = true ∧ r.iterations ≤ 1 :=
  ⟨lstarLoop confirmOracle 1 0 1 initTable, rfl, rfl,
    c7_convergence_within_budget confirmOracle { maxIterations := 1 }
      (lstarLoop confirmOracle 1 0 1 initTable) rfl rfl⟩

/-- One test outcome, embedded from test_scenarios.rs (TestResult); the f64
scores are modelled as rationals and the duration as nanoseconds. -/
structure TestResult where
  scenario_name : String
  success : Bool
  duration : ℕ
  entropy_score : ℚ
  confidence : ℚ
deriving DecidableEq

/-- The aggregate report, embedded from test_scenarios.rs (TestSummary). -/
structure TestSummary where
  total_tests : ℕ
  passed_tests : ℕ
  failed_tests : ℕ
  pass_rate : ℚ
  average_entropy : ℚ
  average_confidence : ℚ
  total_duration : ℕ
  failed_scenarios : List String
deriving DecidableEq

/-- Embedded from test_scenarios.rs (TestScenarioRunner::generate_test_summary):
counts, rates and averages over the runner's accumulated test_results, and the
names of the failed scenarios in order.  The printing side effect is dropped;
the function always returns Ok. -/
def generate_test_summary (test_results : List TestResult) :
    Except String TestSummary :=
  let total_tests := test_results.length
  let passed_tests := (test_results.filter (fun r => r.success)).length
  let failed_tests := total_tests - passed_tests
  let average_entropy := (test_results.map (fun r => r.entropy_score)).sum / (total_tests : ℚ)
  let average_confidence := (test_results.map (fun r => r.confidence)).sum / (total_tests : ℚ)
  let total_duration := (test_results.map (fun r => r.duration)).sum
  .ok { total_tests := total_tests
        passed_tests := passed_tests
        failed_tests := failed_tests
        pass_rate := (passed_tests : ℚ) / (total_tests : ℚ)
        average_entropy := average_entropy
        average_confidence := average_confidence
        total_duration := total_duration
        failed_scenarios := (test_results.filter (fun r => !r.success)).map
          (fun r => r.scenario_name) }

/-- C10: on a non-empty result list, generate_test_summary returns Ok of a
summary whose total equals the list length, whose passed and failed counts sum
to the total, whose pass rate is passed divided by total, and whose failed
scenario names are exactly, in order, those of the unsuccessful results. -/
theorem c10_test_summary (test_results : List TestResult)
    (_hne : test_results ≠ []) :
    ∃ s, generate_test_summary test_results = .ok s ∧
      s.total_tests = test_results.length ∧
      s.passed_tests + s.failed_tests = s.total_tests ∧
      s.pass_rate = (s.passed_tests : ℚ) / (s.total_tests : ℚ) ∧
      s.failed_scenarios = (test_results.filter (fun r => !r.success)).map
        (fun r => r.scenario_name) := by
  refine ⟨_, rfl, rfl, ?_, rfl, rfl⟩
  exact Nat.add_sub_cancel' (List.length_filter_le _ _)

/-- A concrete two-element run with one failure. -/
def sampleResults : List TestResult :=
  [{ scenario_name := "DHS_APT_Lateral_Movement", success := true, duration := 5,
     entropy_score := 3, confidence := 9 / 10 },
   { scenario_name := "LStar_Learning_Convergence", success := false, duration := 7,
     entropy_score := 0, confidence := 1 / 2 }]

/-- C10 witness: the summary invariants at the concrete two-element run. -/
theorem c10_test_summary_witness :
    sampleResults ≠ [] ∧
    ∃ s, generate_test_summary sampleResults = .ok s ∧
      s.total_tests = sampleResults.length ∧
      s.passed_tests + s.failed_tests = s.total_tests ∧
      s.pass_rate = (s.passed_tests : ℚ) / (s.total_tests : ℚ) ∧
      s.failed_scenarios = (sampleResults.filter (fun r => !r.success)).map
        (fun r => r.scenario_name) :=
  ⟨fun h => List.noConfusion h, c10_test_summary sampleResults (fun h => List.noConfusion h)⟩
